import Mathlib

/-!
Verification of the EKF_SLAM repository: a shallow embedding of the
SE(2) transform algebra (turtlelib/src/se2d.cpp) and of the EKF SLAM
predict/update engine (the slam node), with theorems settling the
specification claims. Machine doubles are modelled as real numbers.
-/

namespace turtlelib

/-- A 2-D free displacement, as in turtlelib geometry2d. -/
structure Vector2D where
  x : ℝ
  y : ℝ

/-- A 2-D affine position, as in turtlelib geometry2d. -/
structure Point2D where
  x : ℝ
  y : ℝ

/-- A planar body velocity (angular, linear-x, linear-y), as in turtlelib. -/
structure Twist2D where
  omega : ℝ
  x : ℝ
  y : ℝ

/-- A rigid 2-D transform: translation vector plus rotation angle,
exactly the two data members of turtlelib Transform2D. -/
structure Transform2D where
  trans2d : Vector2D
  rot2d : ℝ

/-- Default constructor Transform2D(): value-initialized members, so zero
translation and zero rotation (se2d.cpp line 33). -/
def Transform2D_default : Transform2D := ⟨⟨0, 0⟩, 0⟩

/-- Constructor Transform2D(Vector2D trans): stores the translation,
zero rotation (se2d.cpp line 36). -/
def Transform2D_ofTrans (trans : Vector2D) : Transform2D := ⟨trans, 0⟩

/-- Constructor Transform2D(double radians): stores the rotation argument
unchanged, zero translation (se2d.cpp line 39). -/
def Transform2D_ofRot (radians : ℝ) : Transform2D := ⟨⟨0, 0⟩, radians⟩

/-- Constructor Transform2D(Vector2D trans, double radians): stores both
arguments unchanged (se2d.cpp line 42). -/
def Transform2D_ofBoth (trans : Vector2D) (radians : ℝ) : Transform2D :=
  ⟨trans, radians⟩

/-- Transform2D::operator()(Point2D) from se2d.cpp lines 45-51: the code
adds the translation to the point and does not rotate it. -/
def transform_apply_point (T : Transform2D) (p : Point2D) : Point2D :=
  ⟨T.trans2d.x + p.x, T.trans2d.y + p.y⟩

/-- Transform2D::operator()(Vector2D) from se2d.cpp lines 53-57:
rotate by rot2d, then add the translation. -/
noncomputable def transform_apply_vector (T : Transform2D) (v : Vector2D) : Vector2D :=
  ⟨v.x * Real.cos T.rot2d - v.y * Real.sin T.rot2d + T.trans2d.x,
   v.x * Real.sin T.rot2d + v.y * Real.cos T.rot2d + T.trans2d.y⟩

/-- Transform2D::inv from se2d.cpp lines 66-69. -/
noncomputable def Transform2D.inv (T : Transform2D) : Transform2D :=
  ⟨⟨-T.trans2d.x * Real.cos T.rot2d - T.trans2d.y * Real.sin T.rot2d,
    -T.trans2d.y * Real.cos T.rot2d + T.trans2d.x * Real.sin T.rot2d⟩,
   -T.rot2d⟩

/-- Transform2D::operator*= from se2d.cpp lines 71-77, which operator*
forwards to. The code first assigns rot2d = rot2d + rhs.rot2d and only
then uses the updated rot2d to rotate the rhs translation. -/
noncomputable def transform_mul (lhs rhs : Transform2D) : Transform2D :=
  let rot := lhs.rot2d + rhs.rot2d
  ⟨⟨rhs.trans2d.x * Real.cos rot - rhs.trans2d.y * Real.sin rot + lhs.trans2d.x,
    rhs.trans2d.x * Real.sin rot + rhs.trans2d.y * Real.cos rot + lhs.trans2d.y⟩,
   rot⟩

/-- Transform2D::translation from se2d.cpp lines 79-82. -/
def Transform2D.translation (T : Transform2D) : Vector2D :=
  ⟨T.trans2d.x, T.trans2d.y⟩

/-- Transform2D::rotation from se2d.cpp lines 84-87: returns the stored
rotation unchanged. -/
def Transform2D.rotation (T : Transform2D) : ℝ := T.rot2d

/-- Modelled from the spec: turtlelib normalize_angle (its implementation
file geometry2.cpp is not among the provided sources; only its tests are).
The spec says any angle outside the principal range is wrapped back by
whole turns of 2*pi and that both pi and -pi are fixed points, and the
tests in test_geometry2.cpp pin the values at pi, -pi, 0, -pi/4, 3*pi/2
and -5*pi/2. This is the wrap-by-whole-turns function on [-pi, pi] with
both endpoints stable, which matches every one of those test values. -/
noncomputable def normalize_angle (a : ℝ) : ℝ :=
  if Real.pi < a then a - 2 * Real.pi * ⌈(a - Real.pi) / (2 * Real.pi)⌉
  else if a < -Real.pi then a + 2 * Real.pi * ⌈(-Real.pi - a) / (2 * Real.pi)⌉
  else a

/-- Modelled from the spec: turtlelib almost_equal (geometry2 is not among
the provided sources). The spec describes it as a tolerance-based
near-equality test; the turtlelib default tolerance is 1.0e-12. -/
abbrev almost_equal (d1 d2 : ℝ) : Prop := |d1 - d2| < 1.0e-12

/-- The C standard library function atan2(y, x): the angle of the point
(x, y), in (-pi, pi], by the usual case split on the signs of x and y. -/
noncomputable def atan2 (y x : ℝ) : ℝ :=
  if 0 < x then Real.arctan (y / x)
  else if x < 0 ∧ 0 ≤ y then Real.arctan (y / x) + Real.pi
  else if x < 0 ∧ y < 0 then Real.arctan (y / x) - Real.pi
  else if x = 0 ∧ 0 < y then Real.pi / 2
  else if x = 0 ∧ y < 0 then -(Real.pi / 2)
  else 0

end turtlelib

namespace slam

open turtlelib

/-- MAX_OBSTACLES from the slam node: the fixed landmark capacity. -/
abbrev MAX_OBSTACLES : ℕ := 30

/-- STATE_SIZE from the slam node: MAX_OBSTACLES * 2 + 3 = 63. -/
abbrev STATE_SIZE : ℕ := MAX_OBSTACLES * 2 + 3

/-- The slam state vector: heading at index 0, robot x at 1, robot y at 2,
landmark k at indices 2k+3 and 2k+4. -/
abbrev State := Fin STATE_SIZE → ℝ

/-- The slam covariance matrix. -/
abbrev Cov := Matrix (Fin STATE_SIZE) (Fin STATE_SIZE) ℝ

/-- Q_bar from the slam node constructor: zero except the entries (0,0),
(1,1) and (2,2) of the robot-pose block, which are 0.1. -/
noncomputable def Q_bar : Cov :=
  Matrix.diagonal (fun i => if i.val < 3 then (0.1 : ℝ) else 0)

/-- v_t from the slam node constructor: the fixed additive measurement
noise (0.1, 0.1). -/
noncomputable def v_t : Fin 2 → ℝ := fun _ => 0.1

/-- R from the slam node constructor: the diagonal measurement noise
covariance with 0.1 on the diagonal. -/
noncomputable def Rmat : Matrix (Fin 2) (Fin 2) ℝ :=
  Matrix.diagonal (fun _ => (0.1 : ℝ))

/-- The state index marker_id * 2 + 3 of the landmark x coordinate. -/
def lmIdx (k : Fin MAX_OBSTACLES) : Fin STATE_SIZE :=
  ⟨k.val * 2 + 3, by
    have hk : k.val < 30 := k.isLt
    show k.val * 2 + 3 < 63
    omega⟩

/-- The state index marker_id * 2 + 4 of the landmark y coordinate. -/
def lmIdy (k : Fin MAX_OBSTACLES) : Fin STATE_SIZE :=
  ⟨k.val * 2 + 4, by
    have hk : k.val < 30 := k.isLt
    show k.val * 2 + 4 < 63
    omega⟩

/-- The mean update of EKF_Slam_predict: with near-zero angular rate the
robot position advances along the current heading and the heading is
unchanged; otherwise the exact arc formulas apply and the heading is
incremented by omega after the position update read the old heading. -/
noncomputable def EKF_Slam_predict_state (s : State) (tw : Twist2D) : State :=
  if almost_equal tw.omega 0 then
    fun i =>
      if i = 1 then s 1 + tw.x * Real.cos (s 0)
      else if i = 2 then s 2 + tw.x * Real.sin (s 0)
      else s i
  else
    fun i =>
      if i = 0 then s 0 + tw.omega
      else if i = 1 then
        s 1 + (tw.x / tw.omega) * (Real.sin (s 0 + tw.omega) - Real.sin (s 0))
      else if i = 2 then
        s 2 + (tw.x / tw.omega) * (-Real.cos (s 0 + tw.omega) + Real.cos (s 0))
      else s i

/-- The state-transition Jacobian A_t of EKF_Slam_predict, built, as in
the code, from the state vector after the in-place mean update: identity
plus the two heading partials at rows 1 and 2 of column 0. -/
noncomputable def EKF_Slam_predict_A (s : State) (tw : Twist2D) :
    Matrix (Fin STATE_SIZE) (Fin STATE_SIZE) ℝ :=
  if almost_equal tw.omega 0 then
    1 + Matrix.of (fun i j =>
      if i = 1 ∧ j = 0 then -tw.x * Real.sin (s 0)
      else if i = 2 ∧ j = 0 then tw.x * Real.cos (s 0)
      else 0)
  else
    1 + Matrix.of (fun i j =>
      if i = 1 ∧ j = 0 then
        (tw.x / tw.omega) * (Real.cos (s 0 + tw.omega) - Real.cos (s 0))
      else if i = 2 ∧ j = 0 then
        (tw.x / tw.omega) * (Real.sin (s 0 + tw.omega) - Real.sin (s 0))
      else 0)

/-- The Jacobian actually used by the predict step: the code mutates the
state first, so A_t is evaluated on the post-update state vector. -/
noncomputable def predictA_used (s : State) (tw : Twist2D) :
    Matrix (Fin STATE_SIZE) (Fin STATE_SIZE) ℝ :=
  EKF_Slam_predict_A (EKF_Slam_predict_state s tw) tw

/-- EKF_Slam_predict from the slam node: mean update, then
covar = A_t * covar * A_t transposed + Q_bar. -/
noncomputable def EKF_Slam_predict (s : State) (covar : Cov) (tw : Twist2D) :
    State × Cov :=
  (EKF_Slam_predict_state s tw,
   predictA_used s tw * covar * (predictA_used s tw).transpose + Q_bar)

/-- The initialization block of EKF_Slam_update: if both stored landmark
coordinates are exactly zero, the slot is seeded by projecting the
range-bearing measurement from the current robot pose estimate; otherwise
the state is left untouched. -/
noncomputable def EKF_Slam_update_init (s : State) (marker_x marker_y : ℝ)
    (k : Fin MAX_OBSTACLES) : State :=
  let r := Real.sqrt (marker_x ^ 2 + marker_y ^ 2)
  let phi := atan2 marker_y marker_x
  if s (lmIdx k) = 0 ∧ s (lmIdy k) = 0 then
    fun i =>
      if i = lmIdx k then s 1 + r * Real.cos (phi + s 0)
      else if i = lmIdy k then s 2 + r * Real.sin (phi + s 0)
      else s i
  else s

/-- The actual measurement z of EKF_Slam_update: range and bearing of the
relative marker position, plus the fixed sensor noise v_t. -/
noncomputable def EKF_Slam_update_z (marker_x marker_y : ℝ) : Fin 2 → ℝ :=
  fun i =>
    (if i = 0 then Real.sqrt (marker_x ^ 2 + marker_y ^ 2)
     else atan2 marker_y marker_x) + v_t i

/-- The theoretical measurement z_hat of EKF_Slam_update, computed from
the state after the initialization block: range to the stored landmark and
the normalized bearing atan2(dy, dx) - heading. -/
noncomputable def EKF_Slam_update_zhat (s : State) (k : Fin MAX_OBSTACLES) :
    Fin 2 → ℝ :=
  let dx := s (lmIdx k) - s 1
  let dy := s (lmIdy k) - s 2
  let d := dx ^ 2 + dy ^ 2
  fun i =>
    if i = 0 then Real.sqrt d
    else normalize_angle (atan2 dy dx - s 0)

/-- The residual z - z_hat that EKF_Slam_update applies to the state via
the Kalman gain; z_hat is computed on the post-initialization state. -/
noncomputable def EKF_Slam_update_residual (s : State) (marker_x marker_y : ℝ)
    (k : Fin MAX_OBSTACLES) : Fin 2 → ℝ :=
  fun i => EKF_Slam_update_z marker_x marker_y i
    - EKF_Slam_update_zhat (EKF_Slam_update_init s marker_x marker_y k) k i

/-- The measurement Jacobian H of EKF_Slam_update: 2 x STATE_SIZE, nonzero
only in the robot-pose columns and the two columns of the observed
landmark, evaluated on the post-initialization state. -/
noncomputable def EKF_Slam_update_H (s : State) (k : Fin MAX_OBSTACLES) :
    Matrix (Fin 2) (Fin STATE_SIZE) ℝ :=
  let dx := s (lmIdx k) - s 1
  let dy := s (lmIdy k) - s 2
  let d := dx ^ 2 + dy ^ 2
  Matrix.of (fun i j =>
    if i = 0 then
      if j = 1 then -dx / Real.sqrt d
      else if j = 2 then -dy / Real.sqrt d
      else if j = lmIdx k then dx / Real.sqrt d
      else if j = lmIdy k then dy / Real.sqrt d
      else 0
    else
      if j = 0 then -1
      else if j = 1 then dy / d
      else if j = 2 then -dx / d
      else if j = lmIdx k then -dy / d
      else if j = lmIdy k then dx / d
      else 0)

/-- The Kalman step of EKF_Slam_update, applied to the state produced by
the initialization block: K = covar Ht (H covar Ht + R) inverse, then
state += K (z - z_hat) and covar = (I - K H) covar. -/
noncomputable def EKF_Slam_update_kalman (s1 : State) (covar : Cov)
    (marker_x marker_y : ℝ) (k : Fin MAX_OBSTACLES) : State × Cov :=
  let H := EKF_Slam_update_H s1 k
  let K := covar * H.transpose * (H * covar * H.transpose + Rmat)⁻¹
  (fun i => s1 i
      + K.mulVec (fun j => EKF_Slam_update_z marker_x marker_y j
          - EKF_Slam_update_zhat s1 k j) i,
   (1 - K * H) * covar)

/-- EKF_Slam_update from the slam node: the one-time landmark
initialization block followed by the Kalman gain, state and covariance
update. -/
noncomputable def EKF_Slam_update (s : State) (covar : Cov)
    (marker_x marker_y : ℝ) (k : Fin MAX_OBSTACLES) : State × Cov :=
  EKF_Slam_update_kalman (EKF_Slam_update_init s marker_x marker_y k) covar
    marker_x marker_y k

/-- One external-facing operation of the estimator: a predict driven by a
twist, or an update driven by one landmark observation. -/
inductive EKFOp where
  | predict (tw : Twist2D)
  | update (marker_x marker_y : ℝ) (k : Fin MAX_OBSTACLES)

/-- A sequence of predict/update calls on the persistent state and
covariance pair, applied in arrival order. -/
noncomputable def EKF_run : List EKFOp → State × Cov → State × Cov
  | [], sc => sc
  | EKFOp.predict tw :: rest, sc =>
      EKF_run rest (EKF_Slam_predict sc.1 sc.2 tw)
  | EKFOp.update mx my k :: rest, sc =>
      EKF_run rest (EKF_Slam_update sc.1 sc.2 mx my k)

/-- The raw index arithmetic of EKF_Slam_update: marker_index =
marker_id * 2 + 3, computed on the signed marker id with no bounds
check before the state vector accesses. -/
def marker_index (marker_id : ℤ) : ℤ := marker_id * 2 + 3

/-- Both accesses state(marker_index) and state(marker_index + 1) of
EKF_Slam_update fall inside the state vector of fixed size 63. -/
def update_in_bounds (marker_id : ℤ) : Prop :=
  0 ≤ marker_index marker_id ∧ marker_index marker_id + 1 < (STATE_SIZE : ℤ)

/-- A concrete slam state: robot at the origin with heading zero and
landmark 0 stored at (0, -1); every other entry zero. -/
noncomputable def s0cex : State := fun i => if i = lmIdy 0 then -1 else 0

end slam

namespace turtlelib

lemma normalize_angle_mem (a : ℝ) :
    normalize_angle a ∈ Set.Icc (-Real.pi) Real.pi := by
  have h2pi : (0 : ℝ) < 2 * Real.pi := by positivity
  unfold normalize_angle
  split_ifs with h1 h2
  · have key : 2 * Real.pi * ((a - Real.pi) / (2 * Real.pi)) = a - Real.pi := by
      field_simp
    have hub : a - Real.pi
        ≤ 2 * Real.pi * (⌈(a - Real.pi) / (2 * Real.pi)⌉ : ℝ) := by
      calc a - Real.pi = 2 * Real.pi * ((a - Real.pi) / (2 * Real.pi)) := key.symm
        _ ≤ 2 * Real.pi * (⌈(a - Real.pi) / (2 * Real.pi)⌉ : ℝ) :=
            mul_le_mul_of_nonneg_left (Int.le_ceil _) (le_of_lt h2pi)
    have hlb : 2 * Real.pi * (⌈(a - Real.pi) / (2 * Real.pi)⌉ : ℝ)
        < a - Real.pi + 2 * Real.pi := by
      calc 2 * Real.pi * (⌈(a - Real.pi) / (2 * Real.pi)⌉ : ℝ)
          < 2 * Real.pi * ((a - Real.pi) / (2 * Real.pi) + 1) :=
            mul_lt_mul_of_pos_left (Int.ceil_lt_add_one _) h2pi
        _ = a - Real.pi + 2 * Real.pi := by rw [mul_add, key]; ring
    constructor
    · linarith
    · linarith
  · have key : 2 * Real.pi * ((-Real.pi - a) / (2 * Real.pi)) = -Real.pi - a := by
      field_simp
    have hub : -Real.pi - a
        ≤ 2 * Real.pi * (⌈(-Real.pi - a) / (2 * Real.pi)⌉ : ℝ) := by
      calc -Real.pi - a = 2 * Real.pi * ((-Real.pi - a) / (2 * Real.pi)) := key.symm
        _ ≤ 2 * Real.pi * (⌈(-Real.pi - a) / (2 * Real.pi)⌉ : ℝ) :=
            mul_le_mul_of_nonneg_left (Int.le_ceil _) (le_of_lt h2pi)
    have hlb : 2 * Real.pi * (⌈(-Real.pi - a) / (2 * Real.pi)⌉ : ℝ)
        < -Real.pi - a + 2 * Real.pi := by
      calc 2 * Real.pi * (⌈(-Real.pi - a) / (2 * Real.pi)⌉ : ℝ)
          < 2 * Real.pi * ((-Real.pi - a) / (2 * Real.pi) + 1) :=
            mul_lt_mul_of_pos_left (Int.ceil_lt_add_one _) h2pi
        _ = -Real.pi - a + 2 * Real.pi := by rw [mul_add, key]; ring
    constructor
    · linarith
    · linarith
  · exact ⟨le_of_not_lt h2, le_of_not_lt h1⟩

lemma normalize_angle_eq_self {a : ℝ} (h1 : -Real.pi ≤ a) (h2 : a ≤ Real.pi) :
    normalize_angle a = a := by
  unfold normalize_angle
  rw [if_neg (not_lt.mpr h2), if_neg (not_lt.mpr h1)]

end turtlelib

namespace turtlelib

/-- C1: the spec claims that for every Transform2D T, T * T.inv() is the
identity transform. Evaluating the code at T with rotation pi/2 and
translation (1, 0) instead gives rotation 0 with translation (1, 1),
because operator*= rotates the rhs translation by the already-updated sum
of the rotation angles: the claim is right and operator*= is a slip. -/
theorem C1_mul_inv_not_identity :
    (transform_mul (Transform2D_ofBoth ⟨1, 0⟩ (Real.pi / 2))
        (Transform2D.inv (Transform2D_ofBoth ⟨1, 0⟩ (Real.pi / 2)))).rot2d = 0 ∧
    (transform_mul (Transform2D_ofBoth ⟨1, 0⟩ (Real.pi / 2))
        (Transform2D.inv (Transform2D_ofBoth ⟨1, 0⟩ (Real.pi / 2)))).trans2d.x = 1 ∧
    (transform_mul (Transform2D_ofBoth ⟨1, 0⟩ (Real.pi / 2))
        (Transform2D.inv (Transform2D_ofBoth ⟨1, 0⟩ (Real.pi / 2)))).trans2d.y = 1 ∧
    transform_mul (Transform2D_ofBoth ⟨1, 0⟩ (Real.pi / 2))
        (Transform2D.inv (Transform2D_ofBoth ⟨1, 0⟩ (Real.pi / 2)))
      ≠ Transform2D_default := by
  have hrot : (Real.pi / 2) + -(Real.pi / 2) = 0 := by ring
  refine ⟨?_, ?_, ?_, ?_⟩
  · simp [transform_mul, Transform2D.inv, Transform2D_ofBoth]
  · simp [transform_mul, Transform2D.inv, Transform2D_ofBoth, hrot]
  · simp [transform_mul, Transform2D.inv, Transform2D_ofBoth, hrot]
  · intro h
    have hx : (transform_mul (Transform2D_ofBoth ⟨1, 0⟩ (Real.pi / 2))
        (Transform2D.inv (Transform2D_ofBoth ⟨1, 0⟩ (Real.pi / 2)))).trans2d.x
        = (Transform2D_default).trans2d.x := by rw [h]
    rw [show (Transform2D_default).trans2d.x = 0 from rfl] at hx
    simp [transform_mul, Transform2D.inv, Transform2D_ofBoth, hrot] at hx

/-- C2: the spec claims that applying a Transform2D to a point rotates the
point and then translates it. Evaluating the code at T with rotation pi/2
and zero translation on the point (1, 0): the code returns (1, 0) (it only
adds the translation), while the rotation formula of the claim gives
(0, 1): the claim states the intent and operator()(Point2D) is a slip. -/
theorem C2_point_not_rotated :
    transform_apply_point (Transform2D_ofBoth ⟨0, 0⟩ (Real.pi / 2)) ⟨1, 0⟩ = ⟨1, 0⟩ ∧
    ((1 : ℝ) * Real.cos (Real.pi / 2) - (0 : ℝ) * Real.sin (Real.pi / 2) + 0,
      (1 : ℝ) * Real.sin (Real.pi / 2) + (0 : ℝ) * Real.cos (Real.pi / 2) + 0)
      = ((0 : ℝ), (1 : ℝ)) ∧
    transform_apply_point (Transform2D_ofBoth ⟨0, 0⟩ (Real.pi / 2)) ⟨1, 0⟩
      ≠ (⟨0, 1⟩ : Point2D) := by
  refine ⟨by simp [transform_apply_point, Transform2D_ofBoth], by simp, ?_⟩
  intro h
  have hx : (transform_apply_point (Transform2D_ofBoth ⟨0, 0⟩ (Real.pi / 2)) ⟨1, 0⟩).x
      = (0 : ℝ) := by rw [h]
  simp [transform_apply_point, Transform2D_ofBoth] at hx

/-- C7 counterexample: the constructor taking a rotation of 5 radians
stores 5 unchanged, and 5 does not lie in the interval (-pi, pi], so the
stored rotation is not always normalized. -/
theorem C7_counterexample :
    (Transform2D_ofRot 5).rotation = 5 ∧
    ¬ (Transform2D_ofRot 5).rotation ∈ Set.Ioc (-Real.pi) Real.pi := by
  refine ⟨rfl, ?_⟩
  intro h
  have h5 : (5 : ℝ) ≤ Real.pi := h.2
  have h4 : Real.pi ≤ 4 := Real.pi_le_four
  linarith

/-- C7 amended: constructors store the rotation argument unchanged with no
normalization, composition adds the rotation angles exactly, and
rotation() returns the stored value; nothing keeps it inside (-pi, pi]. -/
theorem C7_amended (trans : Vector2D) (radians : ℝ) (T1 T2 : Transform2D) :
    (Transform2D_ofRot radians).rotation = radians ∧
    (Transform2D_ofBoth trans radians).rotation = radians ∧
    (transform_mul T1 T2).rotation = T1.rotation + T2.rotation := by
  exact ⟨rfl, rfl, rfl⟩

/-- C8 counterexample: normalize_angle maps -pi to -pi exactly (as the
claim and the test require), but -pi is not a member of the half-open
interval (-pi, pi], so the claimed range and the claimed stability of the
lower endpoint cannot both hold: the conjunction fails at a = -pi. -/
theorem C8_counterexample :
    normalize_angle (-Real.pi) = -Real.pi ∧
    ¬ normalize_angle (-Real.pi) ∈ Set.Ioc (-Real.pi) Real.pi := by
  have hpi : (0 : ℝ) < Real.pi := Real.pi_pos
  have heq : normalize_angle (-Real.pi) = -Real.pi :=
    normalize_angle_eq_self le_rfl (by linarith)
  refine ⟨heq, ?_⟩
  rw [heq]
  intro h
  exact lt_irrefl _ h.1

/-- C8 amended: normalize_angle is idempotent, its value always lies in
the closed interval [-pi, pi] (closed at -pi, not half-open as claimed),
and both endpoints are exact fixed points. -/
theorem C8_amended :
    (∀ a : ℝ, normalize_angle (normalize_angle a) = normalize_angle a) ∧
    (∀ a : ℝ, normalize_angle a ∈ Set.Icc (-Real.pi) Real.pi) ∧
    normalize_angle Real.pi = Real.pi ∧
    normalize_angle (-Real.pi) = -Real.pi := by
  have hpi : (0 : ℝ) < Real.pi := Real.pi_pos
  refine ⟨?_, normalize_angle_mem, ?_, ?_⟩
  · intro a
    have h := normalize_angle_mem a
    exact normalize_angle_eq_self h.1 h.2
  · exact normalize_angle_eq_self (by linarith) le_rfl
  · exact normalize_angle_eq_self le_rfl (by linarith)

end turtlelib

namespace slam

open turtlelib

/-- C3: when the stored landmark slot is exactly (0, 0) the update first
initializes it to the measurement projected from the current estimated
robot pose, x to state(1) + r cos(phi + state(0)) and y to
state(2) + r sin(phi + state(0)); when either stored coordinate is
non-zero the initialization block leaves the state untouched; and the
whole update is the Kalman step applied after that initialization. -/
theorem C3_init_before_kalman (s : State) (covar : Cov) (mx my : ℝ)
    (k : Fin MAX_OBSTACLES) :
    (s (lmIdx k) = 0 ∧ s (lmIdy k) = 0 →
      EKF_Slam_update_init s mx my k (lmIdx k)
        = s 1 + Real.sqrt (mx ^ 2 + my ^ 2) * Real.cos (atan2 my mx + s 0) ∧
      EKF_Slam_update_init s mx my k (lmIdy k)
        = s 2 + Real.sqrt (mx ^ 2 + my ^ 2) * Real.sin (atan2 my mx + s 0)) ∧
    (¬ (s (lmIdx k) = 0 ∧ s (lmIdy k) = 0) →
      EKF_Slam_update_init s mx my k = s) ∧
    EKF_Slam_update s covar mx my k
      = EKF_Slam_update_kalman (EKF_Slam_update_init s mx my k) covar
          mx my k := by
  have hne : lmIdy k ≠ lmIdx k := by
    simp only [lmIdx, lmIdy, ne_eq, Fin.mk.injEq]
    omega
  refine ⟨?_, ?_, rfl⟩
  · intro h
    constructor
    · simp only [EKF_Slam_update_init, if_pos h, if_pos rfl]
    · simp only [EKF_Slam_update_init, if_pos h, if_neg hne, if_pos rfl,
        if_true]
  · intro h
    simp only [EKF_Slam_update_init, if_neg h]

/-- Witness for C3 at the all-zero state with the observation (1, 0) of
landmark 0: the hypothesis holds and the slot is initialized. -/
theorem C3_witness :
    ((fun _ => (0 : ℝ)) (lmIdx 0) = 0 ∧ (fun _ => (0 : ℝ)) (lmIdy 0) = 0) ∧
    (EKF_Slam_update_init (fun _ => 0) 1 0 0 (lmIdx 0)
      = (fun _ => (0 : ℝ)) 1
        + Real.sqrt (1 ^ 2 + 0 ^ 2) * Real.cos (atan2 0 1 + (fun _ => (0 : ℝ)) 0) ∧
     EKF_Slam_update_init (fun _ => 0) 1 0 0 (lmIdy 0)
      = (fun _ => (0 : ℝ)) 2
        + Real.sqrt (1 ^ 2 + 0 ^ 2) * Real.sin (atan2 0 1 + (fun _ => (0 : ℝ)) 0)) :=
  ⟨⟨rfl, rfl⟩,
   (C3_init_before_kalman (fun _ => 0) 0 1 0 0).1 ⟨rfl, rfl⟩⟩

lemma predict_preserves_symm (s : State) (covar : Cov) (tw : Twist2D)
    (hP : covar.IsSymm) : (EKF_Slam_predict s covar tw).2.IsSymm := by
  have hQ : (Q_bar).IsSymm := Matrix.isSymm_diagonal _
  show (predictA_used s tw * covar * (predictA_used s tw).transpose
      + Q_bar).IsSymm
  unfold Matrix.IsSymm at hP hQ ⊢
  rw [Matrix.transpose_add, Matrix.transpose_mul, Matrix.transpose_mul,
    Matrix.transpose_transpose, hP, hQ, Matrix.mul_assoc]

lemma update_preserves_symm (s : State) (covar : Cov) (mx my : ℝ)
    (k : Fin MAX_OBSTACLES) (hP : covar.IsSymm) :
    (EKF_Slam_update s covar mx my k).2.IsSymm := by
  have hR : (Rmat).IsSymm := Matrix.isSymm_diagonal _
  set s1 := EKF_Slam_update_init s mx my k with hs1
  set H := EKF_Slam_update_H s1 k with hH
  show ((1 - covar * H.transpose
      * (H * covar * H.transpose + Rmat)⁻¹ * H) * covar).IsSymm
  set S := H * covar * H.transpose + Rmat with hS
  have hSsymm : S.transpose = S := by
    rw [hS, Matrix.transpose_add, Matrix.transpose_mul, Matrix.transpose_mul,
      Matrix.transpose_transpose, hP.eq, hR.eq, Matrix.mul_assoc]
  have hSinv : (S⁻¹).transpose = S⁻¹ := by
    rw [Matrix.transpose_nonsing_inv, hSsymm]
  unfold Matrix.IsSymm
  rw [Matrix.transpose_mul, Matrix.transpose_sub, Matrix.transpose_one,
    Matrix.transpose_mul, Matrix.transpose_mul, Matrix.transpose_mul,
    Matrix.transpose_transpose, hSinv, hP.eq]
  noncomm_ring
  simp [Matrix.mul_assoc]

lemma run_preserves_symm (ops : List EKFOp) (sc : State × Cov)
    (hP : sc.2.IsSymm) : (EKF_run ops sc).2.IsSymm := by
  induction ops generalizing sc with
  | nil => simpa [EKF_run] using hP
  | cons op rest ih =>
      cases op with
      | predict tw =>
          simp only [EKF_run]
          exact ih _ (predict_preserves_symm sc.1 sc.2 tw hP)
      | update mx my k =>
          simp only [EKF_run]
          exact ih _ (update_preserves_symm sc.1 sc.2 mx my k hP)

/-- C4: starting from a symmetric covariance matrix, one predict step and
one update step each produce a symmetric covariance, and any sequence of
predict/update calls preserves symmetry. -/
theorem C4_symmetry (s : State) (covar : Cov) (tw : Twist2D) (mx my : ℝ)
    (k : Fin MAX_OBSTACLES) (ops : List EKFOp) (hP : covar.IsSymm) :
    (EKF_Slam_predict s covar tw).2.IsSymm ∧
    (EKF_Slam_update s covar mx my k).2.IsSymm ∧
    (EKF_run ops (s, covar)).2.IsSymm :=
  ⟨predict_preserves_symm s covar tw hP,
   update_preserves_symm s covar mx my k hP,
   run_preserves_symm ops (s, covar) hP⟩

/-- Witness for C4 at the zero covariance, a concrete twist, a concrete
observation and a two-operation sequence. -/
theorem C4_witness :
    (0 : Cov).IsSymm ∧
    ((EKF_Slam_predict (fun _ => 0) 0 ⟨1, 1, 0⟩).2.IsSymm ∧
     (EKF_Slam_update (fun _ => 0) 0 1 0 0).2.IsSymm ∧
     (EKF_run [EKFOp.predict ⟨1, 1, 0⟩, EKFOp.update 1 0 0]
        ((fun _ => 0), 0)).2.IsSymm) :=
  ⟨Matrix.isSymm_zero,
   C4_symmetry (fun _ => 0) 0 ⟨1, 1, 0⟩ 1 0 0
     [EKFOp.predict ⟨1, 1, 0⟩, EKFOp.update 1 0 0] Matrix.isSymm_zero⟩

/-- C6: predicting with the zero twist leaves every component of the
state unchanged and adds exactly Q_bar to the covariance; since the
non-zero entries of Q_bar sit only in the 3 x 3 robot-pose block, every
covariance entry with a landmark row or column is unchanged. -/
theorem C6_zero_twist_predict (s : State) (covar : Cov) :
    (EKF_Slam_predict s covar ⟨0, 0, 0⟩).1 = s ∧
    (EKF_Slam_predict s covar ⟨0, 0, 0⟩).2 = covar + Q_bar ∧
    (∀ i j : Fin STATE_SIZE, 3 ≤ i.val ∨ 3 ≤ j.val →
      (EKF_Slam_predict s covar ⟨0, 0, 0⟩).2 i j = covar i j) := by
  have hae : almost_equal (0 : ℝ) 0 := by
    show |(0 : ℝ) - 0| < 1.0e-12
    norm_num
  have hstate : EKF_Slam_predict_state s ⟨0, 0, 0⟩ = s := by
    funext i
    simp only [EKF_Slam_predict_state, if_pos hae]
    split_ifs with h1 h2
    · subst h1; simp
    · subst h2; simp
    · rfl
  have hA : predictA_used s ⟨0, 0, 0⟩ = 1 := by
    unfold predictA_used
    rw [hstate]
    simp only [EKF_Slam_predict_A, if_pos hae]
    have hM : (Matrix.of (fun i j : Fin STATE_SIZE =>
        if i = 1 ∧ j = 0 then -(⟨0, 0, 0⟩ : Twist2D).x * Real.sin (s 0)
        else if i = 2 ∧ j = 0 then (⟨0, 0, 0⟩ : Twist2D).x * Real.cos (s 0)
        else (0 : ℝ))) = 0 := by
      ext i j
      simp only [Matrix.of_apply, Matrix.zero_apply]
      split_ifs <;> simp
    rw [hM, add_zero]
  have hcov : (EKF_Slam_predict s covar ⟨0, 0, 0⟩).2 = covar + Q_bar := by
    show predictA_used s ⟨0, 0, 0⟩ * covar
        * (predictA_used s ⟨0, 0, 0⟩).transpose + Q_bar = covar + Q_bar
    rw [hA, Matrix.transpose_one, Matrix.one_mul, Matrix.mul_one]
  refine ⟨hstate, hcov, ?_⟩
  intro i j hij
  rw [hcov]
  have hQ : Q_bar i j = 0 := by
    unfold Q_bar
    rcases eq_or_ne i j with heq | hne
    · subst heq
      rw [Matrix.diagonal_apply_eq]
      have hge : ¬ i.val < 3 := by rcases hij with h | h <;> omega
      rw [if_neg hge]
    · rw [Matrix.diagonal_apply_ne _ hne]
  simp [Matrix.add_apply, hQ]

/-- Witness for C6 at a concrete state and covariance, checking the
landmark-block condition at the entry (3, 0). -/
theorem C6_witness :
    ((3 : ℕ) ≤ (⟨3, by decide⟩ : Fin STATE_SIZE).val ∨
      (3 : ℕ) ≤ (0 : Fin STATE_SIZE).val) ∧
    (EKF_Slam_predict (fun _ => 0) 0 ⟨0, 0, 0⟩).2 ⟨3, by decide⟩ 0
      = (0 : Cov) ⟨3, by decide⟩ 0 :=
  ⟨Or.inl (by decide),
   (C6_zero_twist_predict (fun _ => 0) 0).2.2 ⟨3, by decide⟩ 0
     (Or.inl (by decide))⟩

/-- C5 counterexample: with the robot at the origin heading zero,
landmark 0 stored at (0, -1) and the observation (-1, 0) of that landmark,
the measured bearing is pi + 0.1 after the additive noise while the
predicted bearing is -pi/2, so the bearing residual applied to the state
is pi + 0.1 + pi/2, which is larger than pi: the residual is not
normalized into (-pi, pi]. -/
theorem C5_counterexample :
    EKF_Slam_update_residual s0cex (-1) 0 0 1
      = Real.pi + 0.1 + Real.pi / 2 ∧
    ¬ EKF_Slam_update_residual s0cex (-1) 0 0 1
        ∈ Set.Ioc (-Real.pi) Real.pi := by
  have hpi : (0 : ℝ) < Real.pi := Real.pi_pos
  have hxy : lmIdx (0 : Fin MAX_OBSTACLES) ≠ lmIdy 0 := by decide
  have h0y : (0 : Fin STATE_SIZE) ≠ lmIdy 0 := by decide
  have h1y : (1 : Fin STATE_SIZE) ≠ lmIdy 0 := by decide
  have h2y : (2 : Fin STATE_SIZE) ≠ lmIdy 0 := by decide
  have hs_x : s0cex (lmIdx 0) = 0 := by simp [s0cex, hxy]
  have hs_y : s0cex (lmIdy 0) = -1 := by simp [s0cex]
  have hs_0 : s0cex 0 = 0 := by simp [s0cex, h0y]
  have hs_1 : s0cex 1 = 0 := by simp [s0cex, h1y]
  have hs_2 : s0cex 2 = 0 := by simp [s0cex, h2y]
  have hinit : EKF_Slam_update_init s0cex (-1) 0 0 = s0cex := by
    simp only [EKF_Slam_update_init]
    rw [if_neg]
    intro h
    rw [hs_y] at h
    exact absurd h.2 (by norm_num)
  have hatan_z : atan2 (0 : ℝ) (-1) = Real.pi := by
    unfold atan2
    rw [if_neg (by norm_num), if_pos (by norm_num : (-1 : ℝ) < 0 ∧ (0 : ℝ) ≤ 0)]
    simp [Real.arctan_zero]
  have hatan_h : atan2 (-1 : ℝ) 0 = -(Real.pi / 2) := by
    unfold atan2
    rw [if_neg (by norm_num), if_neg (by norm_num), if_neg (by norm_num),
      if_neg (by norm_num), if_pos (by norm_num : (0 : ℝ) = 0 ∧ (-1 : ℝ) < 0)]
  have hz : EKF_Slam_update_z (-1) 0 1 = Real.pi + 0.1 := by
    simp only [EKF_Slam_update_z, v_t]
    rw [if_neg (by decide : ¬ (1 : Fin 2) = 0), hatan_z]
  have hzhat : EKF_Slam_update_zhat s0cex 0 1 = -(Real.pi / 2) := by
    simp only [EKF_Slam_update_zhat]
    rw [if_neg (by decide : ¬ (1 : Fin 2) = 0), hs_x, hs_y, hs_0, hs_1, hs_2]
    norm_num [hatan_h]
    exact normalize_angle_eq_self (by linarith) (by linarith)
  have hres : EKF_Slam_update_residual s0cex (-1) 0 0 1
      = Real.pi + 0.1 + Real.pi / 2 := by
    unfold EKF_Slam_update_residual
    rw [hinit, hz, hzhat]
    ring
  refine ⟨hres, ?_⟩
  rw [hres]
  intro h
  have := h.2
  linarith

/-- C5 amended: the update normalizes the bearing of the theoretical
measurement z_hat, which therefore lies in [-pi, pi]; the residual
z - z_hat that is applied to the state is not itself normalized. -/
theorem C5_zhat_normalized (s : State) (k : Fin MAX_OBSTACLES) :
    EKF_Slam_update_zhat s k 1
      = normalize_angle (atan2 (s (lmIdy k) - s 2) (s (lmIdx k) - s 1) - s 0) ∧
    EKF_Slam_update_zhat s k 1 ∈ Set.Icc (-Real.pi) Real.pi := by
  have heq : EKF_Slam_update_zhat s k 1
      = normalize_angle (atan2 (s (lmIdy k) - s 2) (s (lmIdx k) - s 1) - s 0) := by
    simp only [EKF_Slam_update_zhat]
    rw [if_neg (by decide : ¬ (1 : Fin 2) = 0)]
  exact ⟨heq, heq ▸ normalize_angle_mem _⟩

/-- C10: in the non-zero angular-rate branch the heading entry of the
state is incremented by omega during the mean update, and the Jacobian
entries A(1,0) and A(2,0) are then evaluated at that post-update heading
s 0 + omega; in the zero-rate branch the heading is unchanged and the
entries are evaluated at the original heading s 0. -/
theorem C10_jacobian_heading (s : State) (tw : Twist2D) :
    (¬ almost_equal tw.omega 0 →
      EKF_Slam_predict_state s tw 0 = s 0 + tw.omega ∧
      predictA_used s tw 1 0
        = (tw.x / tw.omega)
            * (Real.cos (s 0 + tw.omega + tw.omega)
              - Real.cos (s 0 + tw.omega)) ∧
      predictA_used s tw 2 0
        = (tw.x / tw.omega)
            * (Real.sin (s 0 + tw.omega + tw.omega)
              - Real.sin (s 0 + tw.omega))) ∧
    (almost_equal tw.omega 0 →
      EKF_Slam_predict_state s tw 0 = s 0 ∧
      predictA_used s tw 1 0 = -tw.x * Real.sin (s 0) ∧
      predictA_used s tw 2 0 = tw.x * Real.cos (s 0)) := by
  have h10 : ¬ (1 : Fin STATE_SIZE) = 0 := by decide
  have h20 : ¬ (2 : Fin STATE_SIZE) = 0 := by decide
  have h12 : ¬ (2 : Fin STATE_SIZE) = 1 := by decide
  constructor
  · intro h
    have hstate0 : EKF_Slam_predict_state s tw 0 = s 0 + tw.omega := by
      simp only [EKF_Slam_predict_state, if_neg h, if_pos rfl, if_true]
    refine ⟨hstate0, ?_, ?_⟩
    · show (EKF_Slam_predict_A (EKF_Slam_predict_state s tw) tw) 1 0 = _
      simp only [EKF_Slam_predict_A, if_neg h, Matrix.add_apply,
        Matrix.one_apply_ne h10, Matrix.of_apply, hstate0]
      norm_num
    · show (EKF_Slam_predict_A (EKF_Slam_predict_state s tw) tw) 2 0 = _
      simp only [EKF_Slam_predict_A, if_neg h, Matrix.add_apply,
        Matrix.one_apply_ne h20, Matrix.of_apply, hstate0]
      norm_num [h12]
  · intro h
    have hstate0 : EKF_Slam_predict_state s tw 0 = s 0 := by
      simp only [EKF_Slam_predict_state, if_pos h]
      rw [if_neg (by decide : ¬ (0 : Fin STATE_SIZE) = 1),
        if_neg (by decide : ¬ (0 : Fin STATE_SIZE) = 2)]
    exact ⟨hstate0, by
      show (EKF_Slam_predict_A (EKF_Slam_predict_state s tw) tw) 1 0 = _
      simp only [EKF_Slam_predict_A, if_pos h, Matrix.add_apply,
        Matrix.one_apply_ne h10, Matrix.of_apply, hstate0]
      norm_num, by
      show (EKF_Slam_predict_A (EKF_Slam_predict_state s tw) tw) 2 0 = _
      simp only [EKF_Slam_predict_A, if_pos h, Matrix.add_apply,
        Matrix.one_apply_ne h20, Matrix.of_apply, hstate0]
      norm_num [h12]⟩

/-- Witness for C10 at the zero state and the twist with omega = 1,
x = 1: the non-zero branch hypothesis holds there. -/
theorem C10_witness :
    ¬ almost_equal (1 : ℝ) 0 ∧
    (EKF_Slam_predict_state (fun _ => 0) ⟨1, 1, 0⟩ 0
        = (fun _ => (0 : ℝ)) 0 + 1 ∧
     predictA_used (fun _ => 0) ⟨1, 1, 0⟩ 1 0
        = ((1 : ℝ) / 1)
            * (Real.cos ((fun _ => (0 : ℝ)) 0 + 1 + 1)
              - Real.cos ((fun _ => (0 : ℝ)) 0 + 1)) ∧
     predictA_used (fun _ => 0) ⟨1, 1, 0⟩ 2 0
        = ((1 : ℝ) / 1)
            * (Real.sin ((fun _ => (0 : ℝ)) 0 + 1 + 1)
              - Real.sin ((fun _ => (0 : ℝ)) 0 + 1))) :=
  have hne : ¬ almost_equal (1 : ℝ) 0 := by
    show ¬ |(1 : ℝ) - 0| < 1.0e-12
    norm_num
  ⟨hne, (C10_jacobian_heading (fun _ => 0) ⟨1, 1, 0⟩).1 hne⟩

/-- C9 counterexample: the claimed equivalence between in-bounds access
and 0 <= id < 30 fails at id = -1, where the accessed indices are 1 and 2,
both inside the state vector, although the id is negative. -/
theorem C9_counterexample :
    update_in_bounds (-1) ∧ ¬ (0 ≤ (-1 : ℤ) ∧ (-1 : ℤ) < 30) := by
  constructor
  · constructor
    · norm_num [marker_index]
    · norm_num [marker_index, STATE_SIZE, MAX_OBSTACLES]
  · norm_num

/-- C9 amended: the two state accesses of EKF_Slam_update stay inside the
63-entry state vector exactly for -1 <= id < 30; the spec precondition
0 <= id < 30 is sufficient but not necessary, since id = -1 also stays in
bounds (hitting the robot-pose entries instead of a landmark slot). -/
theorem C9_amended (marker_id : ℤ) :
    update_in_bounds marker_id ↔ (-1 ≤ marker_id ∧ marker_id < 30) := by
  unfold update_in_bounds marker_index
  have hs : ((STATE_SIZE : ℕ) : ℤ) = 63 := by norm_num [STATE_SIZE, MAX_OBSTACLES]
  rw [hs]
  omega

end slam
